/-
  Verification of the AI course-generation and persistence pipeline
  (server/controllers/aiController.js and its collaborators).

  JavaScript strings are embedded as lists of characters (`Str`); machine
  numbers appearing here are small non-negative integers, embedded as `Nat`
  (the only arithmetic is `Math.floor`/`Math.ceil` on exact small ratios,
  where natural division reproduces the float result).  Fallible code is
  embedded with `Option`/`Except`, and the HTTP layer as plain functions
  from a request body to a response value plus, for the save path, the list
  of record-store writes issued.
-/
import Mathlib

/-- A JavaScript string, embedded as its list of characters. -/
abbrev Str := List Char

/-- JavaScript `String.prototype.includes`: substring containment. -/
def jsIncludes (hay needle : Str) : Bool :=
  if needle.isPrefixOf hay then true
  else
    match hay with
    | [] => false
    | _ :: t => jsIncludes t needle

/-- JavaScript `String.prototype.toLowerCase`, restricted to ASCII
    (every string occurring in the controller is ASCII). -/
def jsToLower (s : Str) : Str := s.map Char.toLower

/-- Keyword group checked first by `determineCourseCategory`. -/
def programmingKeywords : List Str :=
  ["programming".data, "coding".data, "development".data, "javascript".data,
   "python".data, "java".data, "web".data]

/-- Keyword group checked second by `determineCourseCategory`. -/
def designKeywords : List Str := ["design".data, "ui".data, "ux".data]

/-- Keyword group checked third by `determineCourseCategory`. -/
def businessKeywords : List Str := ["business".data, "marketing".data, "management".data]

/-- Keyword group checked fourth by `determineCourseCategory`. -/
def dataScienceKeywords : List Str :=
  ["data".data, "machine learning".data, "ai".data, "analytics".data]

/-- Whether the lower-cased course name contains any keyword of a group
    (the `||` chains of the source's if conditions). -/
def matchesAny (courseLower : Str) (kws : List Str) : Bool :=
  kws.any (fun k => jsIncludes courseLower k)

/-- `determineCourseCategory` (aiController.js, lines 207-238): lower-case the
    course name, then test the four keyword groups in order; the first group
    with a matching keyword names the category, otherwise "Other". -/
def determineCourseCategory (courseName : Str) : Str :=
  let courseLower := jsToLower courseName
  if matchesAny courseLower programmingKeywords then "Programming".data
  else if matchesAny courseLower designKeywords then "Design".data
  else if matchesAny courseLower businessKeywords then "Business".data
  else if matchesAny courseLower dataScienceKeywords then "Data Science".data
  else "Other".data

/-- Title templates for module indices 0-2 (`introTitles` in the source). -/
def introTitles : List Str :=
  ["Introduction to".data, "Fundamentals of".data, "Getting Started with".data]

/-- Title templates used for module indices 2-3 (`intermediateTitles`). -/
def intermediateTitles : List Str :=
  ["Advanced Concepts in".data, "Practical Applications of".data, "Deep Dive into".data]

/-- Title templates used for module index 4 and beyond (`advancedTitles`). -/
def advancedTitles : List Str :=
  ["Mastering".data, "Expert Techniques for".data, "Professional".data]

/-- `getModuleTitle` (aiController.js, lines 258-274): a fixed template per
    module index, every index at least 4 reusing the "Mastering" template. -/
def getModuleTitle (courseName : Str) (moduleIndex : Nat) : Str :=
  if moduleIndex = 0 then introTitles.getD 0 [] ++ " ".data ++ courseName
  else if moduleIndex = 1 then
    introTitles.getD 2 [] ++ " ".data ++ courseName ++ " Development".data
  else if moduleIndex = 2 then intermediateTitles.getD 0 [] ++ " ".data ++ courseName
  else if moduleIndex = 3 then intermediateTitles.getD 1 [] ++ " ".data ++ courseName
  else advancedTitles.getD 0 [] ++ " ".data ++ courseName

/-- The six-phrase topic pool used for beginner difficulty. -/
def beginnerTopics : List Str :=
  ["Understanding the basics".data, "Core principles and concepts".data,
   "Setting up your environment".data, "Your first project".data,
   "Best practices for beginners".data, "Common mistakes to avoid".data]

/-- The six-phrase topic pool used for intermediate difficulty. -/
def intermediateTopics : List Str :=
  ["Advanced techniques".data, "Optimizing your workflow".data,
   "Building complex projects".data, "Integration with other systems".data,
   "Performance considerations".data, "Testing and debugging".data]

/-- The six-phrase topic pool used for any other difficulty (the source's
    else branch, reached by "advanced" and by any unrecognised string). -/
def advancedTopics : List Str :=
  ["Expert-level strategies".data, "Cutting-edge methodologies".data,
   "Enterprise-scale implementation".data, "Architecture and design patterns".data,
   "Performance optimization".data, "Advanced troubleshooting".data]

/-- `generateTopics` (aiController.js, lines 277-322): 4/5/6 topics for
    beginner/intermediate/other difficulty, drawn in order from the
    difficulty's pool, each suffixed with " for {courseName}".
    `moduleIndex` is accepted and ignored, as in the source. -/
def generateTopics (courseName : Str) (moduleIndex : Nat) (difficulty : Str) : List Str :=
  let topicCount : Nat :=
    if difficulty = "beginner".data then 4
    else if difficulty = "intermediate".data then 5 else 6
  let topicPool :=
    if difficulty = "beginner".data then beginnerTopics
    else if difficulty = "intermediate".data then intermediateTopics
    else advancedTopics
  (List.range topicCount).map (fun i => topicPool.getD i [] ++ " for ".data ++ courseName)

/-- One module of a generated outline: the object pushed by
    `generateMockOutline` (and stored by the AICourse module schema). -/
structure CourseModule where
  title : Str
  description : Str
  topics : List Str
deriving DecidableEq, Repr

/-- `Math.ceil(a / b)` for non-negative integers `a` and positive `b`
    (the source divides two small exact integers, so the float quotient
    is exact and its ceiling equals the natural-number ceiling). -/
def jsCeilDiv (a b : Nat) : Nat := (a + b - 1) / b

/-- `generateMockOutline` (aiController.js, lines 241-255):
    weeksPerModule = max(1, floor(duration / 4)),
    moduleCount = max(3, ceil(duration / weeksPerModule)); one module per
    index, titled "Module {i+1}: {getModuleTitle}", with an interpolated
    description and `generateTopics` as its topic list. -/
def generateMockOutline (courseName : Str) (duration : Nat) (difficulty : Str) :
    List CourseModule :=
  let weeksPerModule := Nat.max 1 (duration / 4)
  let moduleCount := Nat.max 3 (jsCeilDiv duration weeksPerModule)
  (List.range moduleCount).map (fun i =>
    { title := "Module ".data ++ (Nat.repr (i + 1)).data ++ ": ".data ++
        getModuleTitle courseName i
      description := "This module covers essential concepts related to ".data ++
        jsToLower (getModuleTitle courseName i) ++ ".".data
      topics := generateTopics courseName i difficulty })

/-! ### The AI Generation Adapter's response processing -/

/-- A parsed JSON value (the result of the platform's `JSON.parse`).
    A number is kept as the exact decimal mantissa × 10^exponent its
    literal denotes; `JSON.parse` converts it to a double, and the only
    observation the controller makes of a number — its truthiness — is
    computed from the exact decimal by `jsNumFalsy` below. -/
inductive JsonVal where
  | null
  | bool (b : Bool)
  | num (mantissa exponent : Int)
  | str (s : Str)
  | arr (elems : List JsonVal)
  | obj (fields : List (Str × JsonVal))

/-- Drop leading JSON whitespace (space, tab, line feed, carriage return). -/
def jsonTrim (s : Str) : Str :=
  s.dropWhile (fun c => c == ' ' || c == '\t' || c == '\n' || c == '\r')

/-- The single-character escape table of JSON string literals: the
    character after the backslash paired with the character it denotes
    (`\u` escapes are handled separately in `jsonQuoted`). -/
def jsonEscapes : List (Char × Char) :=
  [('"', '"'), ('\\', '\\'), ('/', '/'), ('n', '\n'), ('t', '\t'), ('r', '\r'),
   ('b', Char.ofNat 8), ('f', Char.ofNat 12)]

/-- The value of one hexadecimal digit, in either case. -/
def hexVal (c : Char) : Option Nat :=
  if c.isDigit then some (c.toNat - '0'.toNat)
  else
    let l := c.toLower
    if 'a' ≤ l ∧ l ≤ 'f' then some (l.toNat - 87) else none

/-- The value of the four hexadecimal digits of a `\u` escape. -/
def hexQuad (a b c d : Char) : Option Nat :=
  match hexVal a, hexVal b, hexVal c, hexVal d with
  | some x, some y, some z, some w => some (((x * 16 + y) * 16 + z) * 16 + w)
  | _, _, _, _ => none

/-- Read a JSON string literal's body, after its opening quote, up to and
    including its closing quote; yields the decoded text and the rest.
    As `JSON.parse` does, this rejects unescaped control characters, any
    backslash not followed by a legal escape, and `\u` without four hex
    digits; a `\u` surrogate pair decodes to the astral character it
    encodes.  One representation caveat: a lone surrogate is a legal UTF-16
    code unit in a JavaScript string but not a Lean scalar value, so it
    decodes to U+FFFD here — a single-character stand-in that preserves
    every observation the controller makes (emptiness and key lookup).
    The fuel argument only forces totality; every step consumes at least
    one character, so `length + 1` fuel never runs out. -/
def jsonQuoted : Nat → Str → Option (Str × Str)
  | 0, _ => none
  | _ + 1, [] => none
  | _ + 1, '"' :: r => some ([], r)
  | fuel + 1, '\\' :: 'u' :: a :: b :: c :: d :: r2@('\\' :: 'u' :: a2 :: b2 :: c2 :: d2 :: r3) =>
    match hexQuad a b c d with
    | none => none
    | some code =>
      if 0xD800 ≤ code ∧ code ≤ 0xDBFF then
        match hexQuad a2 b2 c2 d2 with
        | some code2 =>
          if 0xDC00 ≤ code2 ∧ code2 ≤ 0xDFFF then
            (jsonQuoted fuel r3).map (fun p =>
              (Char.ofNat (0x10000 + (code - 0xD800) * 0x400 + (code2 - 0xDC00))
                :: p.1, p.2))
          else (jsonQuoted fuel r2).map (fun p => ('�' :: p.1, p.2))
        | none => (jsonQuoted fuel r2).map (fun p => ('�' :: p.1, p.2))
      else if 0xDC00 ≤ code ∧ code ≤ 0xDFFF then
        (jsonQuoted fuel r2).map (fun p => ('�' :: p.1, p.2))
      else (jsonQuoted fuel r2).map (fun p => (Char.ofNat code :: p.1, p.2))
  | fuel + 1, '\\' :: 'u' :: a :: b :: c :: d :: r2 =>
    match hexQuad a b c d with
    | none => none
    | some code =>
      if 0xD800 ≤ code ∧ code ≤ 0xDFFF then
        (jsonQuoted fuel r2).map (fun p => ('�' :: p.1, p.2))
      else (jsonQuoted fuel r2).map (fun p => (Char.ofNat code :: p.1, p.2))
  | fuel + 1, '\\' :: e :: r2 =>
    match jsonEscapes.lookup e, jsonQuoted fuel r2 with
    | some d, some (out, rest) => some (d :: out, rest)
    | _, _ => none
  | _ + 1, ['\\'] => none
  | fuel + 1, q :: r =>
    if q.toNat < 32 then none
    else (jsonQuoted fuel r).map (fun p => (q :: p.1, p.2))

/-- The value of a run of decimal digits. -/
def digitsVal (ds : Str) : Nat :=
  ds.foldl (fun a c => 10 * a + (c.toNat - '0'.toNat)) 0

/-- Read the optional fraction part of a JSON number: absent, or a dot
    followed by at least one digit. -/
def jsonFrac : Str → Option (Str × Str)
  | '.' :: r =>
    match r.span Char.isDigit with
    | ([], _) => none
    | (ds, rest) => some (ds, rest)
  | s => some ([], s)

/-- Read the optional exponent part of a JSON number: absent, or e/E, an
    optional sign, and at least one digit. -/
def jsonExp (s : Str) : Option (Int × Str) :=
  match s with
  | c :: r =>
    if c = 'e' ∨ c = 'E' then
      let signed : Bool × Str :=
        match r with
        | '+' :: rr => (false, rr)
        | '-' :: rr => (true, rr)
        | rr => (false, rr)
      match (signed.2).span Char.isDigit with
      | ([], _) => none
      | (ds, rest) =>
        some (if signed.1 then -(digitsVal ds : Int) else (digitsVal ds : Int), rest)
    else some (0, s)
  | [] => some (0, [])

/-- Read a JSON number, covering the full grammar `JSON.parse` accepts and
    nothing more: an optional minus, an integer part without a leading
    zero, an optional fraction, an optional exponent.  The literal is kept
    as the exact decimal mantissa × 10^exponent it denotes. -/
def jsonNumber (s : Str) : Option ((Int × Int) × Str) :=
  let signed : Bool × Str :=
    match s with
    | '-' :: r => (true, r)
    | r => (false, r)
  match (signed.2).span Char.isDigit with
  | ([], _) => none
  | (ids, r1) =>
    if 2 ≤ ids.length ∧ ids.head? = some '0' then none
    else
      match jsonFrac r1 with
      | none => none
      | some (fds, r2) =>
        match jsonExp r2 with
        | none => none
        | some (ex, r3) =>
          let mag : Nat := digitsVal ids * 10 ^ fds.length + digitsVal fds
          some ((if signed.1 then -(mag : Int) else (mag : Int),
                 ex - (fds.length : Int)), r3)

/-- Strip a literal keyword from the front of the input, or fail. -/
def jsonKeyword (kw s : Str) : Option Str :=
  if kw.isPrefixOf s then some (s.drop kw.length) else none

mutual

/-- One step of a recursive-descent parser for the exact grammar of the
    platform's `JSON.parse`: reads one value and yields the unconsumed
    rest.  `fuel` only forces totality; it is instantiated large enough
    below. -/
def jsonValue : Nat → Str → Option (JsonVal × Str)
  | 0, _ => none
  | fuel + 1, input =>
    match jsonTrim input with
    | [] => none
    | c :: rest =>
      if c = '"' then (jsonQuoted (rest.length + 1) rest).map (fun p => (.str p.1, p.2))
      else if c = '-' ∨ c.isDigit then
        (jsonNumber (c :: rest)).map (fun p => (.num p.1.1 p.1.2, p.2))
      else if c = '[' then
        match jsonTrim rest with
        | ']' :: r => some (.arr [], r)
        | r => (jsonItems fuel r).map (fun p => (.arr p.1, p.2))
      else if c = '\x7b' then
        match jsonTrim rest with
        | '\x7d' :: r => some (.obj [], r)
        | r => (jsonEntries fuel r).map (fun p => (.obj p.1, p.2))
      else
        match jsonKeyword ("null".data) (c :: rest) with
        | some r => some (.null, r)
        | none =>
          match jsonKeyword ("true".data) (c :: rest) with
          | some r => some (.bool true, r)
          | none =>
            match jsonKeyword ("false".data) (c :: rest) with
            | some r => some (.bool false, r)
            | none => none

/-- Read the comma-separated elements of a non-empty JSON array, up to and
    including the closing bracket. -/
def jsonItems : Nat → Str → Option (List JsonVal × Str)
  | 0, _ => none
  | fuel + 1, s =>
    match jsonValue fuel s with
    | none => none
    | some (v, r) =>
      match jsonTrim r with
      | sep :: r2 =>
        if sep = ',' then (jsonItems fuel r2).map (fun p => (v :: p.1, p.2))
        else if sep = ']' then some ([v], r2)
        else none
      | [] => none

/-- Read the comma-separated members of a non-empty JSON object, up to and
    including the closing brace. -/
def jsonEntries : Nat → Str → Option (List (Str × JsonVal) × Str)
  | 0, _ => none
  | fuel + 1, s =>
    match jsonTrim s with
    | '"' :: rest =>
      match jsonQuoted (rest.length + 1) rest with
      | none => none
      | some (key, r) =>
        match jsonTrim r with
        | ':' :: r2 =>
          match jsonValue fuel r2 with
          | none => none
          | some (v, r3) =>
            match jsonTrim r3 with
            | sep :: r4 =>
              if sep = ',' then
                (jsonEntries fuel r4).map (fun p => ((key, v) :: p.1, p.2))
              else if sep = '\x7d' then some ([(key, v)], r4)
              else none
            | [] => none
        | _ => none
    | _ => none

end

/-- `JSON.parse`: the whole string must be one JSON value, up to trailing
    whitespace.  The fuel bound always suffices: at least one character of
    input is consumed per two fuel steps, so exhausting `2·length + 2` fuel
    would need more characters than the input has. -/
def parseJson (s : Str) : Option JsonVal :=
  match jsonValue (2 * s.length + 2) s with
  | some (v, rest) => if (jsonTrim rest).isEmpty then some v else none
  | none => none

/-- The span matched by `text.match(/\{[\s\S]*\}/)` (aiController.js,
    line 175): the regex matches from the first `'\x7b'` that has some
    `'\x7d'` after it, greedily through the last `'\x7d'` of the text;
    `none` when no such pair exists (the source then throws, which the
    orchestrator sees as a parse failure). -/
def extractJsonSpan : Str → Option Str
  | [] => none
  | c :: rest =>
    if c = '{' ∧ '}' ∈ rest then
      some ('{' :: ((rest.reverse.dropWhile (fun x => x != '}')).reverse))
    else extractJsonSpan rest

/-- JavaScript property access `obj[k]` on a parsed JSON value: `none` is
    `undefined`.  Booleans, numbers, strings and arrays autobox into
    objects without an own property named by any JSON key used here, so
    the access reads undefined; access on null would throw a TypeError
    instead, so every caller either tests for null first (`moduleOf`) or
    holds a value that is necessarily an object (`validCourseData`'s
    argument parses from a span that starts with an opening brace).  For
    duplicate keys `JSON.parse` keeps the last occurrence. -/
def objGet (v : JsonVal) (k : Str) : Option JsonVal :=
  match v with
  | .obj fields => ((fields.filter (fun p => p.1 == k)).getLast?).map (fun p => p.2)
  | _ => none

/-- Whether the double `JSON.parse` produces for the exact decimal
    mantissa × 10^exponent is zero, hence falsy.  A positive real rounds
    to the zero double exactly when it is at most 2^(-1075) — the midpoint
    below the smallest subnormal 2^(-1074), with the tie going to the even
    zero — and for a non-negative exponent a nonzero mantissa gives at
    least 1.  `JSON.parse` never produces NaN. -/
def jsNumFalsy (mantissa exponent : Int) : Bool :=
  if mantissa = 0 then true
  else
    match exponent with
    | .ofNat _ => false
    | .negSucc k => decide (mantissa.natAbs * 2 ^ 1075 ≤ 10 ^ (k + 1))

/-- JavaScript truthiness of a possibly-undefined parsed JSON value. -/
def jsTruthy : Option JsonVal → Bool
  | none => false
  | some .null => false
  | some (.bool b) => b
  | some (.num m e) => !(jsNumFalsy m e)
  | some (.str s) => !s.isEmpty
  | some (.arr _) => true
  | some (.obj _) => true

/-- JavaScript `Array.isArray` on a possibly-undefined parsed JSON value. -/
def isJsArray : Option JsonVal → Bool
  | some (.arr _) => true
  | _ => false

/-- The structure check of aiController.js line 184, negated: the parsed
    course data passes when `title`, `description` and `outline` are all
    truthy and `outline` is an array (note an empty array is truthy, so an
    empty outline passes). -/
def validCourseData (courseData : JsonVal) : Bool :=
  jsTruthy (objGet courseData ("title".data)) &&
  jsTruthy (objGet courseData ("description".data)) &&
  jsTruthy (objGet courseData ("outline".data)) &&
  isJsArray (objGet courseData ("outline".data))

/-- One module of the adapter's returned course (aiController.js, lines
    194-198): raw JSON values, `none` for an absent (`undefined`) field. -/
structure GemModule where
  title : Option JsonVal
  description : Option JsonVal
  topics : List JsonVal

/-- The course object returned by the adapter on success (aiController.js,
    lines 188-199). -/
structure GemCourse where
  title : Option JsonVal
  description : Option JsonVal
  duration : Nat
  difficulty : Str
  category : JsonVal
  outline : List GemModule

/-- The failure kinds of the generation path, all caught by the
    orchestrator: upstream service failure, no parsable JSON span in the
    response, a failed structure check, or the TypeError thrown while
    building the result (property access on a null outline entry). -/
inductive AiErr where
  | upstream
  | parse
  | schema
  | typeError
deriving DecidableEq, Repr

/-- The outline array of validated course data: the list the program maps
    over at line 194 (validation guarantees it is an array). -/
def outlineElems (courseData : JsonVal) : List JsonVal :=
  match objGet courseData ("outline".data) with
  | some (.arr xs) => xs
  | _ => []

/-- One module object of the adapter's result (aiController.js, lines
    194-198).  Property access on a null array entry throws a TypeError in
    JavaScript — here `none`; every other value autoboxes, its absent
    fields reading as undefined, and topics default to `[]` when missing
    or not an array. -/
def moduleOf (m : JsonVal) : Option GemModule :=
  match m with
  | .null => none
  | _ =>
    some { title := objGet m ("title".data)
           description := objGet m ("description".data)
           topics :=
             match objGet m ("topics".data) with
             | some (.arr ts) => ts
             | _ => [] }

/-- Build every module of the outline, failing when a null entry would
    make the program's `.map` callback throw. -/
def buildModules : List JsonVal → Option (List GemModule)
  | [] => some []
  | m :: ms =>
    match moduleOf m, buildModules ms with
    | some g, some gs => some (g :: gs)
    | _, _ => none

/-- The result object built from validated course data (aiController.js,
    lines 188-199): duration is `Number(duration)`, category defaults to
    the classifier's result when falsy, and the outline is mapped module
    by module; `none` when a null outline entry makes the construction
    throw. -/
def buildGeminiCourse (courseName : Str) (duration : Nat) (difficulty : Str)
    (courseData : JsonVal) : Option GemCourse :=
  (buildModules (outlineElems courseData)).map (fun mods =>
    { title := objGet courseData ("title".data)
      description := objGet courseData ("description".data)
      duration := duration
      difficulty := difficulty
      category :=
        if jsTruthy (objGet courseData ("category".data)) then
          (objGet courseData ("category".data)).getD .null
        else .str (determineCourseCategory courseName)
      outline := mods })

/-- `generateCourseWithGemini`'s response processing (aiController.js, lines
    174-199), taking the upstream response text as input (the outbound call
    itself is the external collaborator; an upstream failure never reaches
    this code): extract the regex span, `JSON.parse` it, check the
    structure, and build the result.  Every failure propagates to the
    caller's catch. -/
def generateCourseWithGemini (courseName : Str) (duration : Nat) (difficulty : Str)
    (text : Str) : Except AiErr GemCourse :=
  match extractJsonSpan text with
  | none => .error .parse
  | some jsonStr =>
    match parseJson jsonStr with
    | none => .error .parse
    | some courseData =>
      if validCourseData courseData then
        match buildGeminiCourse courseName duration difficulty courseData with
        | some course => .ok course
        | none => .error .typeError
      else .error .schema

/-! ### The generate-course operation -/

/-- A user record, as consumed by the controller (only `name` is read). -/
structure UserRec where
  name : Str
deriving DecidableEq, Repr

/-- The request body of POST /generate-course; `none` is an absent field. -/
structure GenBody where
  courseName : Option Str
  duration : Option Nat
  difficulty : Option Str
  userId : Option Str

/-- JavaScript falsiness of a possibly-absent string field
    (absent or empty). -/
def strFalsy : Option Str → Bool
  | none => true
  | some s => s.isEmpty

/-- JavaScript falsiness of a possibly-absent numeric field
    (absent or zero). -/
def natFalsy : Option Nat → Bool
  | none => true
  | some n => n == 0

/-- The fallback course object built by `generateCourse`'s catch branch
    (aiController.js, lines 48-55). -/
structure MockCourse where
  title : Str
  description : Str
  duration : Nat
  difficulty : Str
  category : Str
  outline : List CourseModule
deriving DecidableEq, Repr

/-- The course value carried by a 200 response: the adapter's result or
    the deterministic fallback. -/
inductive CourseOut where
  | gemini (c : GemCourse)
  | mock (c : MockCourse)

/-- A generate-course HTTP response: status code and, on 200, the course. -/
structure GenResponse where
  status : Nat
  course : Option CourseOut

/-- `generateCourse` (aiController.js, lines 8-70).  The user store is the
    collaborator `findUser` (applied to the possibly-absent body field, as
    `User.findById` is); the AI Generation Adapter's outcome is the
    collaborator value `aiResult`.  Validation rejects a falsy courseName,
    duration or difficulty with 400 (`userId` is not checked); an
    unresolved user gives 404; then the adapter's success is returned as-is
    with 200, and any adapter failure falls back to the mock course, also
    with 200. -/
def generateCourse (findUser : Option Str → Option UserRec)
    (aiResult : Except AiErr GemCourse) (body : GenBody) : GenResponse :=
  if strFalsy body.courseName || natFalsy body.duration || strFalsy body.difficulty then
    { status := 400, course := none }
  else
    match findUser body.userId with
    | none => { status := 404, course := none }
    | some _user =>
      match aiResult with
      | .ok generated => { status := 200, course := some (.gemini generated) }
      | .error _e =>
        let courseName := body.courseName.getD []
        let duration := body.duration.getD 0
        let difficulty := body.difficulty.getD []
        { status := 200
          course := some (.mock
            { title := courseName
              description := "A comprehensive ".data ++ difficulty ++
                " level course on ".data ++ courseName ++
                " designed to be completed in ".data ++ (Nat.repr duration).data ++
                " weeks.".data
              duration := duration
              difficulty := difficulty
              category := determineCourseCategory courseName
              outline := generateMockOutline courseName duration difficulty }) }

/-! ### The save-course operation -/

/-- The client-supplied course object of POST /save-course (the shape the
    generation path produces; `image` and `price` are absent there and
    defaulted by the save path). -/
structure SaveCourse where
  title : Str
  description : Str
  image : Option Str
  price : Option Nat
  duration : Nat
  category : Str
  outline : List CourseModule
deriving DecidableEq, Repr

/-- The request body of POST /save-course; `none` is an absent field. -/
structure SaveBody where
  course : Option SaveCourse
  userId : Option Str

/-- `course.image || "default_course.jpg"` (aiController.js, line 103). -/
def jsImageOf (course : SaveCourse) : Str :=
  if strFalsy course.image then "default_course.jpg".data else course.image.getD []

/-- `course.price || 0` (aiController.js, line 104). -/
def jsPriceOf (course : SaveCourse) : Nat :=
  match course.price with
  | some p => p
  | none => 0

/-- One record-store write issued by the save path, in the order the
    controller issues them.  A generated record identifier is modelled as
    the write's position in the sequence. -/
inductive WriteRec where
  | aiCourse (course : SaveCourse) (createdBy : Str)
  | course (title description image : Str) (price duration : Nat)
      (category createdBy : Str) (id : Nat)
  | lecture (title description video : Str) (courseId : Nat)
deriving DecidableEq, Repr

/-- A save-course HTTP response: status code and, on 201, the identifier of
    the generic course record. -/
structure HttpResponse where
  status : Nat
  courseId : Option Nat
deriving DecidableEq, Repr

/-- The identifier the modelled store assigns to the generic course record
    (its position in the save path's write sequence). -/
def regularCourseId : Nat := 1

/-- The lecture-placeholder write for one module (aiController.js, lines
    112-117). -/
def lectureWrite (courseId : Nat) (m : CourseModule) : WriteRec :=
  .lecture m.title m.description ("placeholder.mp4".data) courseId

/-- The lecture-creation loop of `saveCourse` (aiController.js, lines
    110-118): one write per module in order; `failAt idx` makes the write
    numbered `idx` throw, abandoning the loop; the result carries the
    writes performed, tagged with whether the loop completed. -/
def lectureLoop (failAt : Nat → Bool) (idx courseId : Nat) :
    List CourseModule → Except (List WriteRec) (List WriteRec)
  | [] => .ok []
  | m :: ms =>
    if failAt idx then .error []
    else
      match lectureLoop failAt (idx + 1) courseId ms with
      | .ok ws => .ok (lectureWrite courseId m :: ws)
      | .error ws => .error (lectureWrite courseId m :: ws)

/-- `saveCourse` (aiController.js, lines 73-132).  The user store is the
    collaborator `findUser`; storage failures are injected by the oracle
    `failAt` on the write's sequence number (a failed create writes
    nothing).  Validation rejects a falsy course or userId with 400; an
    unknown user gives 404; then the AI-course record, the generic course
    record (with image and price defaults) and one lecture placeholder per
    outline module are written in order; any write failure is caught and
    answered with 500, the earlier writes staying in place; on success the
    response is 201 with the generic course record's identifier. -/
def saveCourse (findUser : Str → Option UserRec) (failAt : Nat → Bool)
    (body : SaveBody) : HttpResponse × List WriteRec :=
  match body.course, body.userId with
  | some course, some userId =>
    if userId.isEmpty then ({ status := 400, courseId := none }, [])
    else
      match findUser userId with
      | none => ({ status := 404, courseId := none }, [])
      | some user =>
        if failAt 0 then ({ status := 500, courseId := none }, [])
        else
          let aiWrite := WriteRec.aiCourse course userId
          if failAt 1 then ({ status := 500, courseId := none }, [aiWrite])
          else
            let courseWrite := WriteRec.course course.title course.description
              (jsImageOf course) (jsPriceOf course) course.duration course.category
              user.name regularCourseId
            match lectureLoop failAt 2 regularCourseId course.outline with
            | .ok ws =>
              ({ status := 201, courseId := some regularCourseId },
               aiWrite :: courseWrite :: ws)
            | .error ws =>
              ({ status := 500, courseId := none }, aiWrite :: courseWrite :: ws)
  | _, _ => ({ status := 400, courseId := none }, [])

/-! ### Sample inputs used by witness theorems -/

/-- A four-module course value, the shape of §8's save-sequencing test. -/
def sampleCourse : SaveCourse :=
  { title := "T".data
    description := "D".data
    image := none
    price := none
    duration := 4
    category := "Other".data
    outline :=
      [{ title := "M1".data, description := "d1".data, topics := ["t".data] },
       { title := "M2".data, description := "d2".data, topics := ["t".data] },
       { title := "M3".data, description := "d3".data, topics := ["t".data] },
       { title := "M4".data, description := "d4".data, topics := ["t".data] }] }

/-- A course value whose outline is the empty sequence. -/
def sampleCourseNoModules : SaveCourse :=
  { sampleCourse with outline := [] }

/-- An adapter response: well-formed JSON whose outline is an empty array. -/
def c5ResponseText : Str :=
  "\x7b\"title\":\"T\",\"description\":\"D\",\"outline\":[]\x7d".data

/-- The topic of §8's end-to-end example. -/
def mlTopic : Str := "Machine Learning for Beginners".data

/-- The fallback Curriculum the orchestrator produces for §8's end-to-end
    example (topic mlTopic, duration 4, difficulty beginner), exactly as
    `generateCourse`'s catch branch builds it. -/
def mlFallback : MockCourse :=
  { title := mlTopic
    description := "A comprehensive ".data ++ "beginner".data ++
      " level course on ".data ++ mlTopic ++
      " designed to be completed in ".data ++ (Nat.repr 4).data ++ " weeks.".data
    duration := 4
    difficulty := "beginner".data
    category := determineCourseCategory mlTopic
    outline := generateMockOutline mlTopic 4 ("beginner".data) }

/-! ### Helper lemmas -/

/-- The topic list of any generated module has the difficulty's length. -/
theorem generateTopics_length (courseName : Str) (i : Nat) (difficulty : Str) :
    (generateTopics courseName i difficulty).length =
      if difficulty = "beginner".data then 4
      else if difficulty = "intermediate".data then 5 else 6 := by
  by_cases h1 : difficulty = "beginner".data <;>
    by_cases h2 : difficulty = "intermediate".data <;>
      simp [generateTopics, h1, h2]

/-- The generated outline's length is the source's moduleCount expression. -/
theorem generateMockOutline_length (courseName : Str) (duration : Nat)
    (difficulty : Str) :
    (generateMockOutline courseName duration difficulty).length =
      Nat.max 3 (jsCeilDiv duration (Nat.max 1 (duration / 4))) := by
  simp [generateMockOutline]

/-- C2: for every topic, every duration in the allowed set 1, 2, 4, 8, 12 and
    every difficulty among beginner, intermediate and advanced, the
    Deterministic Outline Generator returns between 3 and 6 modules, the
    module count being max(3, ceil(duration / max(1, floor(duration / 4)))),
    and every module's topic list has length exactly 4 for beginner, 5 for
    intermediate and 6 for advanced. -/
theorem mockOutline_counts (courseName difficulty : Str) (duration : Nat)
    (hd : duration ∈ ([1, 2, 4, 8, 12] : List Nat)) :
    (3 ≤ (generateMockOutline courseName duration difficulty).length ∧
      (generateMockOutline courseName duration difficulty).length ≤ 6) ∧
    (generateMockOutline courseName duration difficulty).length =
      Nat.max 3 (jsCeilDiv duration (Nat.max 1 (duration / 4))) ∧
    ∀ m ∈ generateMockOutline courseName duration difficulty,
      (difficulty = "beginner".data → m.topics.length = 4) ∧
      (difficulty = "intermediate".data → m.topics.length = 5) ∧
      (difficulty = "advanced".data → m.topics.length = 6) := by
  refine ⟨?_, generateMockOutline_length courseName duration difficulty, ?_⟩
  · rw [generateMockOutline_length]
    simp only [List.mem_cons, List.not_mem_nil, or_false] at hd
    rcases hd with rfl | rfl | rfl | rfl | rfl <;> decide
  · intro m hm
    simp only [generateMockOutline, List.mem_map, List.mem_range] at hm
    obtain ⟨i, _, rfl⟩ := hm
    refine ⟨fun h => ?_, fun h => ?_, fun h => ?_⟩ <;>
      · subst h
        rw [generateTopics_length]
        decide

/-- C6 counterexample: on the end-to-end example input (topic "Machine
    Learning for Beginners", duration 4, beginner), the fallback outline has
    4 modules, not 3, and its first module's title carries the "Module 1: "
    prefix, so it is not "Introduction to Machine Learning for Beginners". -/
theorem mlExample_counterexample :
    (generateMockOutline mlTopic 4 ("beginner".data)).length = 4 ∧
    ((generateMockOutline mlTopic 4 ("beginner".data)).head?).map CourseModule.title =
      some ("Module 1: Introduction to Machine Learning for Beginners".data) := by
  constructor
  · decide
  · rfl

/-- C6 (amended): on the end-to-end example input (topic "Machine Learning
    for Beginners", duration 4, beginner, owner resolved), whatever way the
    AI adapter fails, generate answers 200 with the fallback Curriculum,
    whose category is "Data Science", whose outline has exactly 4 modules of
    exactly 4 topics each, and whose first module is titled
    "Module 1: Introduction to Machine Learning for Beginners". -/
theorem mlExample_fallback (e : AiErr) :
    generateCourse (fun _ => some { name := "U".data }) (.error e)
        { courseName := some mlTopic, duration := some 4,
          difficulty := some ("beginner".data), userId := some ("u1".data) } =
      { status := 200, course := some (.mock mlFallback) } ∧
    mlFallback.category = "Data Science".data ∧
    mlFallback.outline.length = 4 ∧
    (∀ m ∈ mlFallback.outline, m.topics.length = 4) ∧
    (mlFallback.outline.head?).map CourseModule.title =
      some ("Module 1: Introduction to Machine Learning for Beginners".data) := by
  refine ⟨rfl, by decide, by decide, ?_, rfl⟩
  intro m hm
  simp only [mlFallback, generateMockOutline, List.mem_map, List.mem_range] at hm
  obtain ⟨i, _, rfl⟩ := hm
  rw [generateTopics_length]
  decide

/-- C6 witness: the amended statement instantiated at the upstream error. -/
theorem mlExample_fallback_witness :
    generateCourse (fun _ => some { name := "U".data }) (.error .upstream)
        { courseName := some mlTopic, duration := some 4,
          difficulty := some ("beginner".data), userId := some ("u1".data) } =
      { status := 200, course := some (.mock mlFallback) } :=
  (mlExample_fallback .upstream).1

/-- C7: the Category Classifier is total with values in the five fixed
    categories; the four keyword groups are tested in the order Programming,
    Design, Business, Data Science with the first matching group winning,
    and "Other" is returned exactly when no keyword of any group occurs in
    the lower-cased topic. -/
theorem categoryClassifier_spec (topic : Str) :
    determineCourseCategory topic ∈
      (["Programming".data, "Design".data, "Business".data, "Data Science".data,
        "Other".data] : List Str) ∧
    (matchesAny (jsToLower topic) programmingKeywords = true →
      determineCourseCategory topic = "Programming".data) ∧
    (matchesAny (jsToLower topic) programmingKeywords = false →
      matchesAny (jsToLower topic) designKeywords = true →
      determineCourseCategory topic = "Design".data) ∧
    (matchesAny (jsToLower topic) programmingKeywords = false →
      matchesAny (jsToLower topic) designKeywords = false →
      matchesAny (jsToLower topic) businessKeywords = true →
      determineCourseCategory topic = "Business".data) ∧
    (matchesAny (jsToLower topic) programmingKeywords = false →
      matchesAny (jsToLower topic) designKeywords = false →
      matchesAny (jsToLower topic) businessKeywords = false →
      matchesAny (jsToLower topic) dataScienceKeywords = true →
      determineCourseCategory topic = "Data Science".data) ∧
    (determineCourseCategory topic = "Other".data ↔
      matchesAny (jsToLower topic) programmingKeywords = false ∧
      matchesAny (jsToLower topic) designKeywords = false ∧
      matchesAny (jsToLower topic) businessKeywords = false ∧
      matchesAny (jsToLower topic) dataScienceKeywords = false) := by
  cases hp : matchesAny (jsToLower topic) programmingKeywords <;>
    cases hd : matchesAny (jsToLower topic) designKeywords <;>
      cases hb : matchesAny (jsToLower topic) businessKeywords <;>
        cases hds : matchesAny (jsToLower topic) dataScienceKeywords <;>
          simp [determineCourseCategory, hp, hd, hb, hds]

/-- C7 witness: "web design" matches both the Programming group (keyword
    "web") and the Design group (keyword "design"), and the first group
    checked wins. -/
theorem categoryClassifier_spec_witness :
    determineCourseCategory ("web design".data) = "Programming".data :=
  (categoryClassifier_spec ("web design".data)).2.1 (by decide)

/-- For the module indices the allowed durations can produce, the assigned
    title template is never the "Mastering" template of index 4 and above
    (the templates differ in their first character already). -/
theorem getModuleTitle_ne_mastering (courseName : Str) (i : Nat) (hi : i < 4) :
    getModuleTitle courseName i ≠ advancedTitles.getD 0 [] ++ " ".data ++ courseName := by
  interval_cases i
  · intro h
    have hL : (some 'I' : Option Char) = some 'M' := congrArg List.head? h
    exact absurd hL (by decide)
  · intro h
    have hL : (some 'G' : Option Char) = some 'M' := congrArg List.head? h
    exact absurd hL (by decide)
  · intro h
    have hL : (some 'A' : Option Char) = some 'M' := congrArg List.head? h
    exact absurd hL (by decide)
  · intro h
    have hL : (some 'P' : Option Char) = some 'M' := congrArg List.head? h
    exact absurd hL (by decide)

/-- C9: for every topic and difficulty and every allowed duration, the
    outline has exactly 3 modules (durations 1 and 2) or exactly 4
    (durations 4, 8 and 12); every module's title is the indexed template
    with index below 4, so the "Mastering" template of index 4 and above is
    never produced. -/
theorem mockOutline_moduleCount_exact (courseName difficulty : Str) (duration : Nat)
    (hd : duration ∈ ([1, 2, 4, 8, 12] : List Nat)) :
    (generateMockOutline courseName duration difficulty).length =
      (if duration ≤ 2 then 3 else 4) ∧
    ∀ i (h : i < (generateMockOutline courseName duration difficulty).length),
      ((generateMockOutline courseName duration difficulty).get ⟨i, h⟩).title =
        "Module ".data ++ (Nat.repr (i + 1)).data ++ ": ".data ++
          getModuleTitle courseName i ∧
      i < 4 ∧
      getModuleTitle courseName i ≠
        advancedTitles.getD 0 [] ++ " ".data ++ courseName := by
  have hlen : (generateMockOutline courseName duration difficulty).length =
      (if duration ≤ 2 then 3 else 4) := by
    rw [generateMockOutline_length]
    simp only [List.mem_cons, List.not_mem_nil, or_false] at hd
    rcases hd with rfl | rfl | rfl | rfl | rfl <;> decide
  refine ⟨hlen, fun i h => ?_⟩
  have hi4 : i < 4 := by
    have h2 := h
    rw [hlen] at h2
    split at h2 <;> omega
  refine ⟨?_, hi4, getModuleTitle_ne_mastering courseName i hi4⟩
  simp only [generateMockOutline, List.get_eq_getElem, List.getElem_map,
    List.getElem_range]

/-- C2 witness: the count property instantiated at topic "X", duration 8,
    beginner difficulty. -/
theorem mockOutline_counts_witness :
    (3 ≤ (generateMockOutline ("X".data) 8 ("beginner".data)).length ∧
      (generateMockOutline ("X".data) 8 ("beginner".data)).length ≤ 6) ∧
    (generateMockOutline ("X".data) 8 ("beginner".data)).length =
      Nat.max 3 (jsCeilDiv 8 (Nat.max 1 (8 / 4))) ∧
    ∀ m ∈ generateMockOutline ("X".data) 8 ("beginner".data),
      ("beginner".data = "beginner".data → m.topics.length = 4) ∧
      ("beginner".data = "intermediate".data → m.topics.length = 5) ∧
      ("beginner".data = "advanced".data → m.topics.length = 6) :=
  mockOutline_counts ("X".data) ("beginner".data) 8 (by decide)

/-- C9 witness: the exact-count property instantiated at topic "X",
    duration 12, beginner difficulty. -/
theorem mockOutline_moduleCount_exact_witness :
    (generateMockOutline ("X".data) 12 ("beginner".data)).length =
      (if 12 ≤ 2 then 3 else 4) ∧
    ∀ i (h : i < (generateMockOutline ("X".data) 12 ("beginner".data)).length),
      ((generateMockOutline ("X".data) 12 ("beginner".data)).get ⟨i, h⟩).title =
        "Module ".data ++ (Nat.repr (i + 1)).data ++ ": ".data ++
          getModuleTitle ("X".data) i ∧
      i < 4 ∧
      getModuleTitle ("X".data) i ≠
        advancedTitles.getD 0 [] ++ " ".data ++ "X".data :=
  mockOutline_moduleCount_exact ("X".data) ("beginner".data) 12 (by decide)

/-- C1: for every valid request (truthy topic, duration and difficulty,
    resolved owner), whatever error the AI Generation Adapter fails with,
    generate answers 200 with the fallback Curriculum: the templated
    description, the Category Classifier's category, and exactly the
    Deterministic Outline Generator's modules; the failure never surfaces. -/
theorem generate_fallback_on_ai_failure (findUser : Option Str → Option UserRec)
    (body : GenBody) (user : UserRec) (e : AiErr)
    (h1 : strFalsy body.courseName = false)
    (h2 : natFalsy body.duration = false)
    (h3 : strFalsy body.difficulty = false)
    (h4 : findUser body.userId = some user) :
    generateCourse findUser (.error e) body =
      { status := 200
        course := some (.mock
          { title := body.courseName.getD []
            description := "A comprehensive ".data ++ body.difficulty.getD [] ++
              " level course on ".data ++ body.courseName.getD [] ++
              " designed to be completed in ".data ++
              (Nat.repr (body.duration.getD 0)).data ++ " weeks.".data
            duration := body.duration.getD 0
            difficulty := body.difficulty.getD []
            category := determineCourseCategory (body.courseName.getD [])
            outline := generateMockOutline (body.courseName.getD [])
              (body.duration.getD 0) (body.difficulty.getD []) }) } := by
  simp [generateCourse, h1, h2, h3, h4]

/-- C1 witness: the fallback contract at a concrete request, with the
    adapter failing upstream. -/
theorem generate_fallback_on_ai_failure_witness :
    generateCourse (fun _ => some { name := "N".data }) (.error .upstream)
        { courseName := some ("Python".data), duration := some 2,
          difficulty := some ("advanced".data), userId := some ("u1".data) } =
      { status := 200
        course := some (.mock
          { title := "Python".data
            description := ("A comprehensive advanced level course on Python " ++
              "designed to be completed in 2 weeks.").data
            duration := 2
            difficulty := "advanced".data
            category := determineCourseCategory ("Python".data)
            outline := generateMockOutline ("Python".data) 2 ("advanced".data) }) } :=
  generate_fallback_on_ai_failure (fun _ => some { name := "N".data })
    { courseName := some ("Python".data), duration := some 2,
      difficulty := some ("advanced".data), userId := some ("u1".data) }
    { name := "N".data } .upstream rfl rfl rfl rfl

/-- When no lecture write fails, the loop writes one lecture per module in
    module order and completes. -/
theorem lectureLoop_ok (failAt : Nat → Bool) (courseId : Nat)
    (ms : List CourseModule) (idx : Nat) (hok : ∀ n, failAt n = false) :
    lectureLoop failAt idx courseId ms = .ok (ms.map (lectureWrite courseId)) := by
  induction ms generalizing idx with
  | nil => rfl
  | cons m ms ih => simp [lectureLoop, hok, ih]

/-- When the k-th lecture write is the first to fail, the loop has written
    exactly the first k lectures in module order and aborts. -/
theorem lectureLoop_failsAt (failAt : Nat → Bool) (courseId : Nat) :
    ∀ (k : Nat) (ms : List CourseModule) (idx : Nat),
      (∀ n, n < k → failAt (idx + n) = false) → failAt (idx + k) = true →
      k < ms.length →
      lectureLoop failAt idx courseId ms =
        .error ((ms.take k).map (lectureWrite courseId)) := by
  intro k
  induction k with
  | zero =>
    intro ms idx _ hfail hk
    match ms, hk with
    | m :: ms, _ =>
      simp only [Nat.add_zero] at hfail
      simp [lectureLoop, hfail]
  | succ k ih =>
    intro ms idx hok hfail hk
    match ms, hk with
    | m :: ms, hk' =>
      have h0 : failAt idx = false := by
        have := hok 0 (Nat.succ_pos k)
        simpa using this
      have hrec : lectureLoop failAt (idx + 1) courseId ms =
          .error ((ms.take k).map (lectureWrite courseId)) := by
        refine ih ms (idx + 1) (fun n hn => ?_) ?_ (by simpa using hk')
        · have := hok (n + 1) (by omega)
          simpa [Nat.add_assoc, Nat.add_comm 1 n] using this
        · have : idx + 1 + k = idx + (k + 1) := by omega
          rw [this]
          exact hfail
      simp [lectureLoop, h0, hrec]

/-- C3: for an existing owner and a failure-free store, save issues exactly
    one AI-course write (full course plus owner), then one generic-course
    write (price defaulting to 0, image to the placeholder), then one
    lecture write per outline module in module order, each referencing the
    generic course record's identifier, and answers 201 with that
    identifier. -/
theorem save_sequencing (findUser : Str → Option UserRec) (failAt : Nat → Bool)
    (course : SaveCourse) (uid : Str) (user : UserRec)
    (huid : uid.isEmpty = false)
    (hfind : findUser uid = some user)
    (hok : ∀ n, failAt n = false) :
    saveCourse findUser failAt { course := some course, userId := some uid } =
      ({ status := 201, courseId := some regularCourseId },
       WriteRec.aiCourse course uid ::
       WriteRec.course course.title course.description (jsImageOf course)
         (jsPriceOf course) course.duration course.category user.name
         regularCourseId ::
       course.outline.map (lectureWrite regularCourseId)) := by
  simp [saveCourse, huid, hfind, hok, lectureLoop_ok failAt regularCourseId
    course.outline 2 hok]

/-- C3 witness: the save sequence at a four-module course and a
    failure-free store. -/
theorem save_sequencing_witness :
    saveCourse (fun _ => some { name := "A".data }) (fun _ => false)
        { course := some sampleCourse, userId := some ("u1".data) } =
      ({ status := 201, courseId := some regularCourseId },
       WriteRec.aiCourse sampleCourse ("u1".data) ::
       WriteRec.course sampleCourse.title sampleCourse.description
         (jsImageOf sampleCourse) (jsPriceOf sampleCourse) sampleCourse.duration
         sampleCourse.category ("A".data) regularCourseId ::
       sampleCourse.outline.map (lectureWrite regularCourseId)) :=
  save_sequencing (fun _ => some { name := "A".data }) (fun _ => false)
    sampleCourse ("u1".data) { name := "A".data } rfl rfl (fun _ => rfl)

/-- C4: when the k-th lecture write is the first write to fail, the
    AI-course and generic-course records already written stay in place
    (no rollback), only the first k lecture placeholders exist, and save
    answers 500 with no identifier. -/
theorem save_partial_failure (findUser : Str → Option UserRec) (failAt : Nat → Bool)
    (course : SaveCourse) (uid : Str) (user : UserRec) (k : Nat)
    (huid : uid.isEmpty = false)
    (hfind : findUser uid = some user)
    (hok : ∀ n, n < 2 + k → failAt n = false)
    (hfail : failAt (2 + k) = true)
    (hk : k < course.outline.length) :
    saveCourse findUser failAt { course := some course, userId := some uid } =
      ({ status := 500, courseId := none },
       WriteRec.aiCourse course uid ::
       WriteRec.course course.title course.description (jsImageOf course)
         (jsPriceOf course) course.duration course.category user.name
         regularCourseId ::
       (course.outline.take k).map (lectureWrite regularCourseId)) := by
  have hloop : lectureLoop failAt 2 regularCourseId course.outline =
      .error ((course.outline.take k).map (lectureWrite regularCourseId)) := by
    refine lectureLoop_failsAt failAt regularCourseId k course.outline 2
      (fun n hn => hok (2 + n) (by omega)) ?_ hk
    exact hfail
  simp [saveCourse, huid, hfind, hok 0 (by omega), hok 1 (by omega), hloop]

/-- C4 witness: with a four-module course and the 3rd lecture write (write
    number 4 in the sequence) failing, the two course records and the first
    two lectures remain and the response is 500. -/
theorem save_partial_failure_witness :
    saveCourse (fun _ => some { name := "A".data }) (fun n => n == 4)
        { course := some sampleCourse, userId := some ("u1".data) } =
      ({ status := 500, courseId := none },
       WriteRec.aiCourse sampleCourse ("u1".data) ::
       WriteRec.course sampleCourse.title sampleCourse.description
         (jsImageOf sampleCourse) (jsPriceOf sampleCourse) sampleCourse.duration
         sampleCourse.category ("A".data) regularCourseId ::
       (sampleCourse.outline.take 2).map (lectureWrite regularCourseId)) :=
  save_partial_failure (fun _ => some { name := "A".data }) (fun n => n == 4)
    sampleCourse ("u1".data) { name := "A".data } 2 rfl rfl
    (by decide) (by decide) (by decide)

/-- C10: save performs no structural validation of the course beyond its
    presence: with an existing owner and an empty outline, both course
    records are written, no lecture placeholder is written, and the answer
    is 201 with the course identifier. -/
theorem save_empty_outline (findUser : Str → Option UserRec) (failAt : Nat → Bool)
    (course : SaveCourse) (uid : Str) (user : UserRec)
    (huid : uid.isEmpty = false)
    (hfind : findUser uid = some user)
    (hempty : course.outline = [])
    (h0 : failAt 0 = false) (h1 : failAt 1 = false) :
    saveCourse findUser failAt { course := some course, userId := some uid } =
      ({ status := 201, courseId := some regularCourseId },
       [WriteRec.aiCourse course uid,
        WriteRec.course course.title course.description (jsImageOf course)
          (jsPriceOf course) course.duration course.category user.name
          regularCourseId]) := by
  simp [saveCourse, huid, hfind, h0, h1, hempty, lectureLoop]

/-- C10 witness: saving a course whose outline is empty succeeds with only
    the two course writes. -/
theorem save_empty_outline_witness :
    saveCourse (fun _ => some { name := "A".data }) (fun _ => false)
        { course := some sampleCourseNoModules, userId := some ("u1".data) } =
      ({ status := 201, courseId := some regularCourseId },
       [WriteRec.aiCourse sampleCourseNoModules ("u1".data),
        WriteRec.course sampleCourseNoModules.title sampleCourseNoModules.description
          (jsImageOf sampleCourseNoModules) (jsPriceOf sampleCourseNoModules)
          sampleCourseNoModules.duration sampleCourseNoModules.category
          ("A".data) regularCourseId]) :=
  save_empty_outline (fun _ => some { name := "A".data }) (fun _ => false)
    sampleCourseNoModules ("u1".data) { name := "A".data } rfl rfl rfl rfl rfl

/-- C8 (amended): generate answers 400 exactly when topic, duration or
    difficulty is falsy — the owner id is not part of that validation — and
    404 when the owner lookup resolves no user; save answers 400 when the
    course or the owner id is falsy and 404 when the owner does not exist;
    in every one of these rejection paths no record is written. -/
theorem validation_behavior :
    (∀ (findUser : Option Str → Option UserRec) (ai : Except AiErr GemCourse)
       (body : GenBody),
      (generateCourse findUser ai body).status = 400 ↔
        (strFalsy body.courseName || natFalsy body.duration ||
          strFalsy body.difficulty) = true) ∧
    (∀ (findUser : Option Str → Option UserRec) (ai : Except AiErr GemCourse)
       (body : GenBody),
      strFalsy body.courseName = false → natFalsy body.duration = false →
      strFalsy body.difficulty = false → findUser body.userId = none →
      generateCourse findUser ai body = { status := 404, course := none }) ∧
    (∀ (findUser : Str → Option UserRec) (failAt : Nat → Bool) (body : SaveBody),
      body.course = none ∨ strFalsy body.userId = true →
      saveCourse findUser failAt body = ({ status := 400, courseId := none }, [])) ∧
    (∀ (findUser : Str → Option UserRec) (failAt : Nat → Bool)
       (course : SaveCourse) (uid : Str),
      uid.isEmpty = false → findUser uid = none →
      saveCourse findUser failAt { course := some course, userId := some uid } =
        ({ status := 404, courseId := none }, [])) := by
  refine ⟨?_, ?_, ?_, ?_⟩
  · intro findUser ai body
    cases hval : (strFalsy body.courseName || natFalsy body.duration ||
        strFalsy body.difficulty) with
    | true => simp [generateCourse, hval]
    | false =>
      simp only [generateCourse, hval, Bool.false_eq_true, if_false]
      cases hf : findUser body.userId with
      | none => simp
      | some u => cases ai <;> simp
  · intro findUser ai body h1 h2 h3 hf
    simp [generateCourse, h1, h2, h3, hf]
  · intro findUser failAt body hbad
    rcases hbody : body with ⟨bc, bu⟩
    rcases hbad with hc | hu
    · subst hbody
      simp only at hc
      subst hc
      cases bu <;> rfl
    · subst hbody
      simp only at hu
      cases bc with
      | none => cases bu <;> rfl
      | some c =>
        cases bu with
        | none => rfl
        | some uid =>
          simp only [strFalsy] at hu
          simp [saveCourse, hu]
  · intro findUser failAt course uid huid hf
    simp [saveCourse, huid, hf]

/-- C8 counterexample: a generate request with a valid topic, duration and
    difficulty but no ownerId field is not rejected with 400; it reaches the
    owner lookup and is answered 404 when no user resolves. -/
theorem validation_behavior_counterexample :
    (generateCourse (fun _ => none) (.error .upstream)
        { courseName := some ("Python".data), duration := some 4,
          difficulty := some ("beginner".data), userId := none }).status = 404 ∧
    (generateCourse (fun _ => none) (.error .upstream)
        { courseName := some ("Python".data), duration := some 4,
          difficulty := some ("beginner".data), userId := none }).status ≠ 400 := by
  exact ⟨rfl, by decide⟩

/-- C8 witness: the 400-iff-falsy-field direction at a concrete body with a
    missing topic. -/
theorem validation_behavior_witness :
    (generateCourse (fun _ => some { name := "N".data }) (.error .upstream)
        { courseName := none, duration := some 4,
          difficulty := some ("beginner".data), userId := some ("u1".data) }).status
      = 400 :=
  (validation_behavior.1 (fun _ => some { name := "N".data }) (.error .upstream)
    { courseName := none, duration := some 4,
      difficulty := some ("beginner".data), userId := some ("u1".data) }).mpr
    (by decide)

/-- A text without an opening brace has no regex match. -/
theorem extractJsonSpan_none (text : Str) (h : '{' ∉ text) :
    extractJsonSpan text = none := by
  induction text with
  | nil => rfl
  | cons c rest ih =>
    simp only [List.mem_cons, not_or] at h
    have hc : c ≠ '{' := fun he => h.1 he.symm
    simp [extractJsonSpan, hc, ih h.2]

/-- dropWhile stops exactly at the first closing brace. -/
theorem dropWhile_until_rbrace (l r : Str) (h : '}' ∉ l) :
    (l ++ '}' :: r).dropWhile (fun x => x != '}') = '}' :: r := by
  induction l with
  | nil => simp [List.dropWhile_cons]
  | cons a l ih =>
    simp only [List.mem_cons, not_or] at h
    have ha : (a != '}') = true := by
      simp only [bne_iff_ne, ne_eq]
      exact fun he => h.1 he.symm
    simp [List.dropWhile_cons, ha, ih h.2]

/-- The match of the greedy regex on a text decomposed around its first
    opening brace and its last closing brace: everything between them,
    braces included, whatever braces stand in between. -/
theorem extractJsonSpan_greedy (pre mid post : Str)
    (hpre : '{' ∉ pre) (hpost : '}' ∉ post) :
    extractJsonSpan (pre ++ '{' :: (mid ++ '}' :: post)) =
      some ('{' :: (mid ++ ['}'])) := by
  induction pre with
  | nil =>
    have hmem : ('}' : Char) ∈ mid ++ '}' :: post := by simp
    have hdrop : ((mid ++ '}' :: post).reverse.dropWhile (fun x => x != '}')) =
        '}' :: mid.reverse := by
      have hrev : (mid ++ '}' :: post).reverse = post.reverse ++ '}' :: mid.reverse := by
        simp
      rw [hrev, dropWhile_until_rbrace]
      simpa using hpost
    rw [List.nil_append]
    simp only [extractJsonSpan]
    rw [if_pos ⟨trivial, hmem⟩, hdrop]
    simp
  | cons a pre ih =>
    simp only [List.mem_cons, not_or] at hpre
    have ha : a ≠ '{' := fun he => hpre.1 he.symm
    simpa [extractJsonSpan, ha] using ih hpre.2

/-- Only a null entry makes a module's construction throw. -/
theorem moduleOf_eq_none_iff (m : JsonVal) : moduleOf m = none ↔ m = JsonVal.null := by
  cases m <;> simp [moduleOf]

/-- The outline's module construction fails exactly when the outline
    contains a null entry. -/
theorem buildModules_eq_none_iff (l : List JsonVal) :
    buildModules l = none ↔ JsonVal.null ∈ l := by
  induction l with
  | nil => simp [buildModules]
  | cons m ms ih =>
    simp only [buildModules, List.mem_cons]
    cases hm : moduleOf m with
    | none =>
      have h1 : m = JsonVal.null := (moduleOf_eq_none_iff m).mp hm
      simp [h1, moduleOf]
    | some g =>
      have h1 : ¬(JsonVal.null = m) := by
        intro he
        rw [← he] at hm
        simp [moduleOf] at hm
      cases hms : buildModules ms with
      | none => simp [hm, hms, ih.mp hms]
      | some gs =>
        have h2 : JsonVal.null ∉ ms := by
          intro he
          rw [← ih, hms] at he
          exact Option.noConfusion he
        simp [hm, hms, h1, h2]

/-- C5 (amended): the adapter takes the span of the response text running
    from its first opening brace to its last closing brace (greedy regex,
    not the first balanced span) and parses it as JSON; a missing span (in
    particular, any text without an opening brace) or an unparsable span is
    a parse failure; a parsed object failing the truthy-title,
    truthy-description, truthy-and-array-outline check — which an empty
    outline array passes — is a schema failure; otherwise the result is
    built from the parsed data, a construction that itself throws exactly
    when the outline contains a null entry (property access on null) and
    otherwise returns the parsed course. -/
theorem gemini_adapter_behavior (courseName : Str) (duration : Nat)
    (difficulty : Str) :
    (∀ text : Str, '{' ∉ text →
      generateCourseWithGemini courseName duration difficulty text =
        .error .parse) ∧
    (∀ pre mid post : Str, '{' ∉ pre → '}' ∉ post →
      extractJsonSpan (pre ++ '{' :: (mid ++ '}' :: post)) =
        some ('{' :: (mid ++ ['}']))) ∧
    (∀ text span : Str, extractJsonSpan text = some span → parseJson span = none →
      generateCourseWithGemini courseName duration difficulty text =
        .error .parse) ∧
    (∀ (text span : Str) (courseData : JsonVal),
      extractJsonSpan text = some span → parseJson span = some courseData →
      (generateCourseWithGemini courseName duration difficulty text =
          .error .schema ↔ validCourseData courseData = false)) ∧
    (∀ (text span : Str) (courseData : JsonVal),
      extractJsonSpan text = some span → parseJson span = some courseData →
      validCourseData courseData = true →
      generateCourseWithGemini courseName duration difficulty text =
        (buildGeminiCourse courseName duration difficulty courseData).elim
          (.error .typeError) .ok) ∧
    (∀ courseData : JsonVal,
      buildGeminiCourse courseName duration difficulty courseData = none ↔
        JsonVal.null ∈ outlineElems courseData) := by
  refine ⟨?_, extractJsonSpan_greedy, ?_, ?_, ?_, ?_⟩
  · intro text h
    simp [generateCourseWithGemini, extractJsonSpan_none text h]
  · intro text span hspan hparse
    simp [generateCourseWithGemini, hspan, hparse]
  · intro text span courseData hspan hparse
    cases hv : validCourseData courseData
    · simp [generateCourseWithGemini, hspan, hparse, hv]
    · cases hb : buildGeminiCourse courseName duration difficulty courseData <;>
        simp [generateCourseWithGemini, hspan, hparse, hv, hb]
  · intro text span courseData hspan hparse hv
    cases hb : buildGeminiCourse courseName duration difficulty courseData <;>
      simp [generateCourseWithGemini, hspan, hparse, hv, hb, Option.elim]
  · intro courseData
    rw [buildGeminiCourse, Option.map_eq_none', buildModules_eq_none_iff]

/-- C5 counterexample: a response whose JSON has an empty outline array is
    not rejected with a schema error, contrary to the claim's
    "outline ... an empty sequence" clause; the adapter returns it as a
    course with no modules. -/
theorem gemini_adapter_counterexample :
    generateCourseWithGemini ("X".data) 4 ("beginner".data) c5ResponseText ≠
      .error .schema ∧
    generateCourseWithGemini ("X".data) 4 ("beginner".data) c5ResponseText =
      .ok { title := some (.str ("T".data)), description := some (.str ("D".data)),
            duration := 4, difficulty := "beginner".data,
            category := .str ("Other".data), outline := [] } := by
  refine ⟨?_, rfl⟩
  intro h
  rw [show generateCourseWithGemini ("X".data) 4 ("beginner".data) c5ResponseText =
      .ok { title := some (.str ("T".data)), description := some (.str ("D".data)),
            duration := 4, difficulty := "beginner".data,
            category := .str ("Other".data), outline := [] } from rfl] at h
  exact Except.noConfusion h

/-- C5 witness: a response without an opening brace is a parse failure. -/
theorem gemini_adapter_behavior_witness :
    generateCourseWithGemini ("X".data) 4 ("beginner".data) ("no json here".data) =
      .error .parse :=
  (gemini_adapter_behavior ("X".data) 4 ("beginner".data)).1 ("no json here".data)
    (by decide)
